import Mathlib

/-!
Verification of the bank-statement reconciliation and data-normalization
pipeline.  The source is a TypeScript/React application; its core is the
value normalizer (`safeParseFloat` / `safeParseInt`), the reconciliation
mapper (`mapAccountData`, `mapADLSToReconciliationRow`), the batch fetch
loop, and the per-account reconciliation verdict
(`calculateDifference` / `isHarmonized`).

Modelling choices (shallow embedding of JavaScript semantics):
* JavaScript numbers are modelled as exact rationals extended with the
  special values `NaN`, `Infinity` and `-Infinity` (`JSNum`).  Sub-overflow
  IEEE-754 rounding noise and `-0` are not modelled — the claims under
  scrutiny are about exact decimal arithmetic, where double rounding is the
  identity on both sides of each equation — but the overflow of parsed
  decimal text to an infinity at the double-range boundary (magnitude at
  least `2^1024 - 2^970`) is modelled, since the normalizers can really
  produce infinities that way.
* Loosely typed inputs (number | string | null | undefined) are modelled
  by the sum type `JSValue`.
* The impure clock read `Date.now()` is made explicit: functions that call
  it receive the current reading as an argument `now : ℕ`.
-/

/-- The rational with numerator `z` and denominator 1, built with the core
constructor `mkRat` so that it evaluates by plain kernel reduction. -/
def intQ (z : ℤ) : ℚ := mkRat z 1

/-- A JavaScript number: a finite (exact) rational, `NaN`, or an infinity. -/
inductive JSNum where
  | finite : ℚ → JSNum
  | nan : JSNum
  | posInf : JSNum
  | negInf : JSNum
deriving DecidableEq

/-- A loosely-typed JavaScript value as it can appear in a raw field. -/
inductive JSValue where
  | num : JSNum → JSValue
  | str : String → JSValue
  | null : JSValue
  | undef : JSValue
deriving DecidableEq

namespace JSNum

/-- `isNaN(x)` on a number. -/
def isNaN : JSNum → Bool
  | nan => true
  | _ => false

/-- `Number.isFinite(x)`: true exactly for finite numbers. -/
def isFinite : JSNum → Bool
  | finite _ => true
  | _ => false

/-- `Math.floor(x)`.  `NaN` and the infinities are preserved. -/
def floorJS : JSNum → JSNum
  | finite q => finite (intQ (Rat.floor q))
  | nan => nan
  | posInf => posInf
  | negInf => negInf

/-- `Math.abs(x)`. -/
def absJS : JSNum → JSNum
  | finite q => finite |q|
  | nan => nan
  | posInf => posInf
  | negInf => posInf

/-- `Math.round(x)`: rounds half toward positive infinity. -/
def roundJS : JSNum → JSNum
  | finite q => finite (intQ (Rat.floor (q + mkRat 1 2)))
  | nan => nan
  | posInf => posInf
  | negInf => negInf

/-- JavaScript addition on numbers. -/
def add : JSNum → JSNum → JSNum
  | nan, _ => nan
  | _, nan => nan
  | posInf, negInf => nan
  | negInf, posInf => nan
  | posInf, _ => posInf
  | _, posInf => posInf
  | negInf, _ => negInf
  | _, negInf => negInf
  | finite a, finite b => finite (a + b)

/-- JavaScript negation on numbers. -/
def neg : JSNum → JSNum
  | finite a => finite (-a)
  | nan => nan
  | posInf => negInf
  | negInf => posInf

/-- JavaScript subtraction on numbers. -/
def sub (a b : JSNum) : JSNum := add a (neg b)

/-- JavaScript multiplication on numbers. -/
def mul : JSNum → JSNum → JSNum
  | nan, _ => nan
  | _, nan => nan
  | finite a, finite b => finite (a * b)
  | posInf, posInf => posInf
  | negInf, negInf => posInf
  | posInf, negInf => negInf
  | negInf, posInf => negInf
  | posInf, finite b => if b = 0 then nan else if 0 < b then posInf else negInf
  | finite a, posInf => if a = 0 then nan else if 0 < a then posInf else negInf
  | negInf, finite b => if b = 0 then nan else if 0 < b then negInf else posInf
  | finite a, negInf => if a = 0 then nan else if 0 < a then negInf else posInf

/-- JavaScript division on numbers (`-0` is not modelled). -/
def div : JSNum → JSNum → JSNum
  | nan, _ => nan
  | _, nan => nan
  | posInf, posInf => nan
  | posInf, negInf => nan
  | negInf, posInf => nan
  | negInf, negInf => nan
  | posInf, finite b => if b < 0 then negInf else posInf
  | negInf, finite b => if b < 0 then posInf else negInf
  | finite _, posInf => finite 0
  | finite _, negInf => finite 0
  | finite a, finite b =>
      if b = 0 then (if a = 0 then nan else if 0 < a then posInf else negInf)
      else finite (a / b)

/-- The JavaScript comparison `x < y` (false whenever `NaN` is involved). -/
def ltJS : JSNum → JSNum → Bool
  | finite a, finite b => decide (a < b)
  | nan, _ => false
  | _, nan => false
  | negInf, negInf => false
  | negInf, _ => true
  | _, negInf => false
  | posInf, _ => false
  | finite _, posInf => true

/-- The JavaScript comparison `0 <= x` (false for `NaN`). -/
def nonneg : JSNum → Bool
  | finite a => decide (0 ≤ a)
  | nan => false
  | posInf => true
  | negInf => false

end JSNum

/-- Truthiness of a JavaScript value: `0`, `NaN`, `""`, `null` and
`undefined` are falsy, everything else is truthy. -/
def jsTruthy : JSValue → Bool
  | .num (.finite q) => decide (q ≠ 0)
  | .num .nan => false
  | .num _ => true
  | .str s => decide (s ≠ "")
  | .null => false
  | .undef => false

/-- The JavaScript short-circuit `a || b` on values. -/
def jsOr (a b : JSValue) : JSValue := if jsTruthy a then a else b

/-- `n || d` where `n` is a number and `d` a numeric default: the falsy
numbers are `0` and `NaN`. -/
def jsOrNum (n : JSNum) (d : ℚ) : JSNum :=
  if n = .finite 0 ∨ n = .nan then .finite d else n

/-- The JavaScript WhiteSpace and LineTerminator characters skipped by
`trim`, `parseFloat` and `parseInt`: TAB, LF, VT, FF, CR, SP, NBSP, the
Unicode space separators, LS, PS, NNBSP, MMSP, ideographic space, BOM. -/
def jsWhitespace (c : Char) : Bool :=
  let n := c.toNat
  n = 9 ∨ n = 10 ∨ n = 11 ∨ n = 12 ∨ n = 13 ∨ n = 32 ∨ n = 160 ∨ n = 0x1680 ∨
    (0x2000 ≤ n ∧ n ≤ 0x200A) ∨ n = 0x2028 ∨ n = 0x2029 ∨ n = 0x202F ∨
    n = 0x205F ∨ n = 0x3000 ∨ n = 0xFEFF

/-- `String.prototype.trim()`: strip leading and trailing whitespace. -/
def jsTrim (s : String) : String :=
  String.mk (((s.data.dropWhile jsWhitespace).reverse.dropWhile jsWhitespace).reverse)

/-- `.replace(/,/g, '')`: remove every comma. -/
def stripCommas (s : String) : String :=
  String.mk (s.data.filter (fun c => c ≠ ','))

/-- The numeric value of a list of decimal digit characters. -/
def digitsVal (ds : List Char) : ℕ :=
  ds.foldl (fun acc c => 10 * acc + (c.toNat - '0'.toNat)) 0

/-- Split off the longest leading run of decimal digits. -/
def takeDigits (cs : List Char) : List Char × List Char :=
  (cs.takeWhile Char.isDigit, cs.dropWhile Char.isDigit)

/-- Consume one optional leading sign; returns (isNegative, rest). -/
def readSign : List Char → Bool × List Char
  | '-' :: r => (true, r)
  | '+' :: r => (false, r)
  | cs => (false, cs)

/-- Does the character list start with the literal `Infinity`? -/
def matchInfinity : List Char → Bool
  | 'I' :: 'n' :: 'f' :: 'i' :: 'n' :: 'i' :: 't' :: 'y' :: _ => true
  | _ => false

/-- Read an optional exponent part `[eE][+-]?digits`; `0` if absent or if
the exponent has no digits (in which case `parseFloat` stops before it). -/
def readExponent : List Char → ℤ
  | 'e' :: r => readExponentTail r
  | 'E' :: r => readExponentTail r
  | _ => 0
where
  /-- Sign and digits of an exponent. -/
  readExponentTail (r : List Char) : ℤ :=
    let (negE, r1) := readSign r
    let (ds, _) := takeDigits r1
    if ds = [] then 0 else (if negE then -1 else 1) * (digitsVal ds : ℤ)

/-- The magnitude at which a parsed decimal value overflows when converted
to an IEEE-754 double: values with `|x| >= 2^1024 - 2^970` (the midpoint
between the largest finite double and `2^1024`) round to an infinity. -/
def overflowThreshold : ℕ := 2 ^ 1024 - 2 ^ 970

/-- Conversion of an exact parsed value to a JavaScript double: magnitudes
at or beyond the overflow threshold become the corresponding infinity;
below it the exact rational is kept (sub-overflow rounding noise is not
modelled). -/
def toDouble (q : ℚ) : JSNum :=
  if intQ (Int.ofNat overflowThreshold) ≤ q then .posInf
  else if q ≤ intQ (-Int.ofNat overflowThreshold) then .negInf
  else .finite q

/-- Does an exact value overflow the double range? -/
def overflows (q : ℚ) : Bool := !(toDouble q).isFinite

/-- The exact value read by `parseFloat(s)`: skip whitespace, read an
optional sign, then either the literal `Infinity` or the longest
decimal-literal prefix `digits [ '.' digits ] [ exponent ]`; `NaN` when no
digit is found.  The result is the exact (unrounded) rational. -/
def parseFloatExact (s : String) : JSNum :=
  let sr := readSign (s.data.dropWhile jsWhitespace)
  if matchInfinity sr.2 then (if sr.1 then .negInf else .posInf)
  else
    let ip := (takeDigits sr.2).1
    let fr : List Char × List Char :=
      match (takeDigits sr.2).2 with
      | '.' :: r => takeDigits r
      | cs2 => ([], cs2)
    if ip = [] ∧ fr.1 = [] then .nan
    else
      let base : ℤ := Int.ofNat (digitsVal ip * 10 ^ fr.1.length + digitsVal fr.1)
      let sgn : ℤ := if sr.1 then -1 else 1
      let e : ℤ := readExponent fr.2
      if 0 ≤ e then .finite (mkRat (sgn * base * Int.ofNat (10 ^ e.toNat)) (10 ^ fr.1.length))
      else .finite (mkRat (sgn * base) (10 ^ fr.1.length * 10 ^ (-e).toNat))

/-- `parseFloat(s)`: the exact parsed value converted to a double, so that
decimal text beyond the double range (e.g. `"1e999"`) yields an
infinity, exactly as in JavaScript. -/
def parseFloatJS (s : String) : JSNum :=
  match parseFloatExact s with
  | .finite q => toDouble q
  | r => r

/-- The exact value read by `parseInt(s, 10)`: skip whitespace, read an
optional sign, then the longest run of decimal digits; `NaN` when no digit
is found.  The result is the exact (unrounded) integer. -/
def parseIntExact (s : String) : JSNum :=
  let sr := readSign (s.data.dropWhile jsWhitespace)
  let ds := (takeDigits sr.2).1
  if ds = [] then .nan
  else .finite (intQ ((if sr.1 then -1 else 1) * Int.ofNat (digitsVal ds)))

/-- `parseInt(s, 10)`: the exact parsed integer converted to a double, so
that digit runs beyond the double range (310 or more significant digits)
yield an infinity, exactly as in JavaScript. -/
def parseIntJS (s : String) : JSNum :=
  match parseIntExact s with
  | .finite q => toDouble q
  | r => r

/-- `safeParseFloat` from the source: `null`/`undefined` become `0`; a
number is returned as-is unless it is `NaN` (which becomes `0`); a string
is trimmed, stripped of commas and fed to `parseFloat`, with a parse
failure becoming `0`. -/
def safeParseFloat : JSValue → JSNum
  | .null => .finite 0
  | .undef => .finite 0
  | .num n => if n.isNaN then .finite 0 else n
  | .str s =>
      let parsed := parseFloatJS (stripCommas (jsTrim s))
      if parsed.isNaN then .finite 0 else parsed

/-- `safeParseInt` from the source: like `safeParseFloat` but a number is
floored and a string is fed to `parseInt(_, 10)`. -/
def safeParseInt : JSValue → JSNum
  | .null => .finite 0
  | .undef => .finite 0
  | .num n => if n.isNaN then .finite 0 else n.floorJS
  | .str s =>
      let parsed := parseIntJS (stripCommas (jsTrim s))
      if parsed.isNaN then .finite 0 else parsed

/-- Decimal rendering of a rational whose denominator divides a power of
ten: the digit count of the fractional part.  (`String()` on a JavaScript
number; every value reached by the claims is an integer, where this agrees
exactly with JavaScript.) -/
def decExponent (den : ℕ) : Option ℕ :=
  (List.range (den + 1)).find? (fun k => 10 ^ k % den = 0)

/-- Decimal string of a natural number `n` scaled by `10^-k`. -/
def scaledDecString (n : ℕ) (k : ℕ) : String :=
  if k = 0 then toString n
  else
    let ip := n / 10 ^ k
    let fp := n % 10 ^ k
    let fpStr := toString fp
    let pad := String.mk (List.replicate (k - fpStr.length) '0')
    toString ip ++ "." ++ pad ++ fpStr

/-- `String()` applied to a finite rational number.  Integers render as
plain signed decimal numerals (no leading zeros, no separators), matching
JavaScript; terminating decimals render with a fractional part. -/
def ratRender (q : ℚ) : String :=
  if q.den = 1 then toString q.num
  else
    match decExponent q.den with
    | some k =>
        (if q.num < 0 then "-" else "") ++ scaledDecString (q.num.natAbs * (10 ^ k / q.den)) k
    | none => toString q.num ++ "/" ++ toString q.den

/-- `String()` applied to a JavaScript number. -/
def JSNum.render : JSNum → String
  | .finite q => ratRender q
  | .nan => "NaN"
  | .posInf => "Infinity"
  | .negInf => "-Infinity"

/-- `String()` applied to a JavaScript value. -/
def jsToString : JSValue → String
  | .num n => n.render
  | .str s => s
  | .null => "null"
  | .undef => "undefined"

/-- `getMonthAbbreviation` from the source: `String(month)` is looked up in
a fixed table `"1" ↦ "JAN" … "12" ↦ "DEC"`; a missed (or falsy) lookup
falls back to the string itself. -/
def getMonthAbbreviation (month : JSValue) : String :=
  let monthStr := jsToString month
  let looked : Option String :=
    List.lookup monthStr
      [("1", "JAN"), ("2", "FEB"), ("3", "MAR"), ("4", "APR"),
       ("5", "MAY"), ("6", "JUN"), ("7", "JUL"), ("8", "AUG"),
       ("9", "SEP"), ("10", "OCT"), ("11", "NOV"), ("12", "DEC")]
  match looked with
  | some a => if a = "" then monthStr else a
  | none => monthStr

/-- Proleptic-Gregorian leap-year test (as used by the JavaScript `Date`
object). -/
def isLeapYear (y : ℤ) : Bool :=
  (y % 4 = 0 ∧ y % 100 ≠ 0) ∨ y % 400 = 0

/-- Number of days in month `m` (1–12) of year `y` in the proleptic
Gregorian calendar. -/
def daysInMonth (y m : ℤ) : ℤ :=
  if m = 2 then (if isLeapYear y then 29 else 28)
  else if m = 4 ∨ m = 6 ∨ m = 9 ∨ m = 11 then 30
  else 31

/-- `new Date(year, month, 0).getDate()` for integral arguments: day `0` of
the 0-based month index `month` is the last day of the calendar month
`month` (1-based) of `year`, with arbitrary month indices normalized by
rolling over into adjacent years and years `0…99` interpreted as
`1900…1999`.  Non-integral or non-finite arguments give an invalid date,
whose `getDate()` is `NaN`. -/
def jsDateLastDay (year month : JSNum) : JSNum :=
  match year, month with
  | .finite y, .finite m =>
      if y.den = 1 ∧ m.den = 1 then
        let yy : ℤ := if 0 ≤ y.num ∧ y.num ≤ 99 then y.num + 1900 else y.num
        let absMonth : ℤ := yy * 12 + (m.num - 1)
        .finite (intQ (daysInMonth (absMonth / 12) (absMonth % 12 + 1)))
      else .nan
  | _, _ => .nan

/-- Raw per-account record produced by the upstream parsing agent
(`AccountData` in the source).  Numeric-like fields may arrive as numbers,
strings, `null` or missing, hence `JSValue`. -/
structure AccountData where
  account_number : Option String
  account_type : Option String
  beginning_balance : JSValue
  ending_balance : JSValue
  total_deposits : JSValue
  total_withdrawals : JSValue
  avg_daily_balance : JSValue
  no_of_deposits : JSValue
  no_of_withdrawals : JSValue
  mca_withdrawals : JSValue
  returned_items_count : JSValue
  returned_items_days : JSValue
  overdraft_days : JSValue
deriving DecidableEq

/-- Normalized per-account record (`MappedAccount` in the source). -/
structure MappedAccount where
  account_number : String
  account_type : String
  starting_balance : JSNum
  ending_balance : JSNum
  total_credits : JSNum
  total_debits : JSNum
  average_balance : JSNum
  no_of_deposits : JSNum
  no_of_withdrawals : JSNum
  mca_withdrawals : JSNum
  returned_items_count : JSNum
  returned_items_days : JSNum
  overdraft_days : JSNum
deriving DecidableEq

/-- The nested detail object of a raw envelope (`parsed_json`). -/
structure ParsedJson where
  bank_name : Option String
  statement_month : JSValue
  statement_year : JSValue
  accounts : Option (List AccountData)
deriving DecidableEq

/-- A raw statement envelope (`ADLSResponse`).  The fields the mapper never
reads (`agent_name`, `processing_status`, timestamps) are omitted. -/
structure ADLSResponse where
  parsed_json : Option ParsedJson
  batch_id : Option String
  filename : Option String
deriving DecidableEq

/-- One normalized reconciliation row (`ReconciliationRow`). -/
structure ReconciliationRow where
  case_id : String
  document_name : String
  iso_email : String
  bank_name : String
  month_year : String
  first_transaction_date : String
  last_transaction_date : String
  accounts : List MappedAccount
  filename : String
deriving DecidableEq

/-- `mapAccountData` from the source: field-for-field normalization of one
raw account; `total_debits` takes the absolute value of the parsed
`total_withdrawals`. -/
def mapAccountData (account : AccountData) : MappedAccount :=
  { account_number := account.account_number.getD ""
    account_type := account.account_type.getD ""
    starting_balance := safeParseFloat account.beginning_balance
    ending_balance := safeParseFloat account.ending_balance
    total_credits := safeParseFloat account.total_deposits
    total_debits := (safeParseFloat account.total_withdrawals).absJS
    average_balance := safeParseFloat account.avg_daily_balance
    no_of_deposits := safeParseInt account.no_of_deposits
    no_of_withdrawals := safeParseInt account.no_of_withdrawals
    mca_withdrawals := safeParseFloat account.mca_withdrawals
    returned_items_count := safeParseInt account.returned_items_count
    returned_items_days := safeParseInt account.returned_items_days
    overdraft_days := safeParseInt account.overdraft_days }

/-- `.replace(" ", "_")` with a string pattern: replace the first space. -/
def replaceFirstSpace : List Char → List Char
  | [] => []
  | ' ' :: r => '_' :: r
  | c :: r => c :: replaceFirstSpace r

/-- Lower-case a character list (ASCII; enough for the suffix match). -/
def lowerAscii (cs : List Char) : List Char := cs.map Char.toLower

/-- `.replace(/_parsing_result\.json$/i, '')`: strip a case-insensitive
literal `_parsing_result.json` suffix. -/
def stripResultSuffix (f : String) : String :=
  let suffix := "_parsing_result.json".data
  let n := f.data.length - suffix.length
  if suffix.length ≤ f.data.length ∧ lowerAscii (f.data.drop n) = suffix then
    String.mk (f.data.take n)
  else f

/-- The body of `mapADLSToReconciliationRow` after its structural guard:
builds one `ReconciliationRow` from a present `parsed_json`, the envelope's
`batch_id` and `filename`, and the current `Date.now()` reading `now`. -/
def buildRow (now : ℕ) (pj : ParsedJson) (batch_id filename : Option String) :
    ReconciliationRow :=
  let monthYear :=
    getMonthAbbreviation (jsOr pj.statement_month (.num (.finite (intQ 1)))) ++ " " ++
      jsToString (jsOr pj.statement_year (.num (.finite (intQ 2025))))
  let month := jsOrNum (safeParseInt pj.statement_month) (intQ 1)
  let year := jsOrNum (safeParseInt pj.statement_year) (intQ 2025)
  let lastDay := jsDateLastDay year month
  let firstTransactionDate := month.render ++ "/1/" ++ year.render
  let lastTransactionDate := month.render ++ "/" ++ lastDay.render ++ "/" ++ year.render
  let mappedAccounts := (pj.accounts.getD []).map mapAccountData
  let displayFilename :=
    match filename with
    | some f => if f ≠ "" then stripResultSuffix f else ""
    | none => ""
  { case_id :=
      match batch_id with
      | some b => if b ≠ "" then b else "CASE-" ++ toString now
      | none => "CASE-" ++ toString now
    document_name := "Statement_" ++ String.mk (replaceFirstSpace monthYear.data) ++ ".pdf"
    iso_email := ""
    bank_name := pj.bank_name.getD ""
    month_year := monthYear
    first_transaction_date := firstTransactionDate
    last_transaction_date := lastTransactionDate
    accounts := mappedAccounts
    filename := displayFilename }

/-- `mapADLSToReconciliationRow` from the source: throws a structural error
exactly when the envelope lacks its `parsed_json`; otherwise builds the
row.  The impure `Date.now()` read is the explicit argument `now`. -/
def mapADLSToReconciliationRow (now : ℕ) (adlsData : ADLSResponse) :
    Except String ReconciliationRow :=
  match adlsData.parsed_json with
  | none => .error "Invalid ADLS data structure: missing parsed_json"
  | some pj => .ok (buildRow now pj adlsData.batch_id adlsData.filename)

/-- The guard of the fetch loop: `item.parsed_json` and
`item.parsed_json.accounts` must both be present (`Array.isArray` holds for
every modelled accounts list). -/
def dataValid (item : ADLSResponse) : Bool :=
  match item.parsed_json with
  | some pj => pj.accounts.isSome
  | none => false

/-- The batch loop of `fetchData`: each raw item is skipped when the guard
fails, otherwise mapped, with a mapping failure skipping just that item.
`clock i` is the `Date.now()` reading observed while processing item `i`
(readings within one cycle may coincide). -/
def fetchData (clock : ℕ → ℕ) : List ADLSResponse → ℕ → List ReconciliationRow
  | [], _ => []
  | item :: rest, i =>
      if dataValid item then
        match mapADLSToReconciliationRow (clock i) item with
        | .ok row => row :: fetchData clock rest (i + 1)
        | .error _ => fetchData clock rest (i + 1)
      else fetchData clock rest (i + 1)

/-- `calculateDifference` from the source: the rounded difference between
the stated ending balance and the calculated balance, clamped to `0` when
below half a cent. -/
def calculateDifference (account : MappedAccount) : JSNum :=
  let calcBalance :=
    (account.starting_balance.sub account.total_debits).add account.total_credits
  let difference := account.ending_balance.sub calcBalance
  let rounded := (difference.mul (.finite (intQ 100))).roundJS.div (.finite (intQ 100))
  if rounded.absJS.ltJS (.finite (mkRat 5 1000)) then .finite 0 else rounded

/-- `isHarmonized` from the source: the reconciliation verdict
`difference === 0`. -/
def isHarmonized (account : MappedAccount) : Bool :=
  calculateDifference account = .finite 0

/-! ### Definitions supporting the individual claims -/

/-- The specification's `round2`: rounding to two decimal places (with the
source's tie rule, half toward positive infinity). -/
def round2 (q : ℚ) : ℚ := ((Rat.floor (q * 100 + 1/2) : ℤ) : ℚ) / 100

/-- A string that `parseFloat` reads as an infinity once trimmed and
stripped of commas: an optional sign followed by the literal `Infinity`. -/
def strDenotesInfinity (s : String) : Bool :=
  matchInfinity (readSign ((stripCommas (jsTrim s)).data.dropWhile jsWhitespace)).2

/-- A string whose exact `parseFloat` value overflows the double range
once trimmed and stripped of commas. -/
def strOverflowsFloat (s : String) : Bool :=
  match parseFloatExact (stripCommas (jsTrim s)) with
  | .finite q => overflows q
  | _ => false

/-- A string whose exact `parseInt` value overflows the double range once
trimmed and stripped of commas. -/
def strOverflowsInt (s : String) : Bool :=
  match parseIntExact (stripCommas (jsTrim s)) with
  | .finite q => overflows q
  | _ => false

/-- The inputs on which `safeParseFloat` produces an infinite number: an
infinite number, a string denoting an infinity, or a string whose numeric
value overflows the double range. -/
def floatNonfiniteSource : JSValue → Bool
  | .num .posInf => true
  | .num .negInf => true
  | .str s => strDenotesInfinity s || strOverflowsFloat s
  | _ => false

/-- The inputs on which `safeParseInt` produces an infinite number: an
infinite number, or a string whose integer value overflows the double
range. -/
def intNonfiniteSource : JSValue → Bool
  | .num .posInf => true
  | .num .negInf => true
  | .str s => strOverflowsInt s
  | _ => false

/-- A normalized account carrying the four balance fields of the
reconciliation formula (the remaining fields are irrelevant to the
verdict). -/
def acctWithBalances (sb td tc eb : ℚ) : MappedAccount :=
  { account_number := "", account_type := "", starting_balance := .finite sb,
    ending_balance := .finite eb, total_credits := .finite tc,
    total_debits := .finite td, average_balance := .finite 0,
    no_of_deposits := .finite 0, no_of_withdrawals := .finite 0,
    mca_withdrawals := .finite 0, returned_items_count := .finite 0,
    returned_items_days := .finite 0, overdraft_days := .finite 0 }

/-- A raw account whose only populated field is `total_withdrawals`. -/
def debitAccount (w : JSValue) : AccountData :=
  { account_number := none, account_type := none, beginning_balance := .undef,
    ending_balance := .undef, total_deposits := .undef, total_withdrawals := w,
    avg_daily_balance := .undef, no_of_deposits := .undef,
    no_of_withdrawals := .undef, mca_withdrawals := .undef,
    returned_items_count := .undef, returned_items_days := .undef,
    overdraft_days := .undef }

/-- A detail object with no populated field at all. -/
def pjBare : ParsedJson :=
  { bank_name := none, statement_month := .undef, statement_year := .undef,
    accounts := some [] }

/-- A detail object whose accounts list is absent. -/
def pjNoAccounts : ParsedJson :=
  { bank_name := none, statement_month := .undef, statement_year := .undef,
    accounts := none }

/-- A detail object for bank A (no month/year). -/
def pjBankA : ParsedJson :=
  { bank_name := some "ALPHA", statement_month := .undef, statement_year := .undef,
    accounts := some [] }

/-- A detail object for bank B (no month/year). -/
def pjBankB : ParsedJson :=
  { bank_name := some "BETA", statement_month := .undef, statement_year := .undef,
    accounts := some [] }

/-- A well-formed envelope with no `batch_id`. -/
def statementNoBatch : ADLSResponse :=
  { parsed_json := some pjBare, batch_id := none, filename := none }

/-- A well-formed envelope carrying `batch_id = "B7"`. -/
def statementWithBatch : ADLSResponse :=
  { parsed_json := some pjBare, batch_id := some "B7", filename := none }

/-- Envelope for bank A with no `batch_id`. -/
def stmtNoBatchA : ADLSResponse :=
  { parsed_json := some pjBankA, batch_id := none, filename := none }

/-- Envelope for bank B with no `batch_id`. -/
def stmtNoBatchB : ADLSResponse :=
  { parsed_json := some pjBankB, batch_id := none, filename := none }

/-- A malformed envelope: the nested detail object is missing. -/
def statementMissingDetail : ADLSResponse :=
  { parsed_json := none, batch_id := some "BAD", filename := none }

/-- An envelope whose detail object lacks the accounts list. -/
def statementNoAccounts : ADLSResponse :=
  { parsed_json := some pjNoAccounts, batch_id := some "B9", filename := none }

/-- A detail object for February 2024. -/
def pjFeb2024 : ParsedJson :=
  { bank_name := none, statement_month := .num (.finite 2),
    statement_year := .num (.finite 2024), accounts := some [] }

/-- A detail object for February 2025. -/
def pjFeb2025 : ParsedJson :=
  { bank_name := none, statement_month := .num (.finite 2),
    statement_year := .num (.finite 2025), accounts := some [] }

/-- A detail object for August 2025. -/
def pjAug2025 : ParsedJson :=
  { bank_name := none, statement_month := .num (.finite 8),
    statement_year := .num (.finite 2025), accounts := some [] }

/-- A detail object whose month and year are unparseable text. -/
def pjInvalidMonthYear : ParsedJson :=
  { bank_name := none, statement_month := .str "abc", statement_year := .str "",
    accounts := some [] }

/-! ### Helper lemmas -/

theorem intQ_eq (z : ℤ) : intQ z = (z : ℚ) := Rat.mkRat_one z

theorem JSNum.add_fin (a b : ℚ) : (JSNum.finite a).add (.finite b) = .finite (a + b) := rfl

theorem JSNum.neg_fin (a : ℚ) : (JSNum.finite a).neg = .finite (-a) := rfl

theorem JSNum.sub_fin (a b : ℚ) : (JSNum.finite a).sub (.finite b) = .finite (a - b) := by
  show (JSNum.finite a).add (.finite (-b)) = .finite (a - b)
  rw [JSNum.add_fin, sub_eq_add_neg]

theorem JSNum.mul_fin (a b : ℚ) : (JSNum.finite a).mul (.finite b) = .finite (a * b) := rfl

theorem JSNum.roundJS_fin (q : ℚ) :
    (JSNum.finite q).roundJS = .finite (intQ (Rat.floor (q + mkRat 1 2))) := rfl

theorem JSNum.absJS_fin (q : ℚ) : (JSNum.finite q).absJS = .finite |q| := rfl

theorem JSNum.ltJS_fin (a b : ℚ) :
    (JSNum.finite a).ltJS (.finite b) = decide (a < b) := rfl

theorem JSNum.div_fin (a b : ℚ) (h : b ≠ 0) :
    (JSNum.finite a).div (.finite b) = .finite (a / b) := by
  simp [JSNum.div, h]

theorem mkRat_half : (mkRat 1 2 : ℚ) = 1/2 := by
  rw [Rat.mkRat_eq_div]; norm_num

theorem mkRat_noise : (mkRat 5 1000 : ℚ) = 5/1000 := by
  rw [Rat.mkRat_eq_div]; norm_num

theorem intQ_hundred : intQ 100 = (100 : ℚ) := by rw [intQ_eq]; norm_num

theorem nanGuard_not_nan (p : JSNum) :
    (if p.isNaN then JSNum.finite 0 else p).isNaN = false := by
  cases p <;> simp [JSNum.isNaN]

theorem safeParseFloat_not_nan (v : JSValue) : (safeParseFloat v).isNaN = false := by
  cases v with
  | num n => exact nanGuard_not_nan n
  | str s => exact nanGuard_not_nan (parseFloatJS (stripCommas (jsTrim s)))
  | null => rfl
  | undef => rfl

theorem nanGuardFloor_not_nan (p : JSNum) :
    (if p.isNaN then JSNum.finite 0 else p.floorJS).isNaN = false := by
  cases p <;> simp [JSNum.isNaN, JSNum.floorJS]

theorem safeParseInt_not_nan (v : JSValue) : (safeParseInt v).isNaN = false := by
  cases v with
  | num n => exact nanGuardFloor_not_nan n
  | str s => exact nanGuard_not_nan (parseIntJS (stripCommas (jsTrim s)))
  | null => rfl
  | undef => rfl

theorem parseIntExact_shape (s : String) :
    (∃ q, parseIntExact s = .finite q) ∨ parseIntExact s = .nan := by
  unfold parseIntExact
  dsimp only
  split
  · right; rfl
  · left; exact ⟨_, rfl⟩

theorem parseFloatExact_shape (s : String)
    (h : matchInfinity (readSign (s.data.dropWhile jsWhitespace)).2 = false) :
    (∃ q, parseFloatExact s = .finite q) ∨ parseFloatExact s = .nan := by
  unfold parseFloatExact
  dsimp only
  simp only [h, Bool.false_eq_true, if_false]
  split
  · right; rfl
  · split
    · left; exact ⟨_, rfl⟩
    · left; exact ⟨_, rfl⟩

theorem toDouble_fin_or_overflow (q : ℚ) :
    toDouble q = .finite q ∨ overflows q = true := by
  unfold overflows toDouble
  by_cases h1 : intQ (Int.ofNat overflowThreshold) ≤ q
  · right
    rw [if_pos h1]
    rfl
  · by_cases h2 : q ≤ intQ (-Int.ofNat overflowThreshold)
    · right
      rw [if_neg h1, if_pos h2]
      rfl
    · left
      rw [if_neg h1, if_neg h2]

theorem absJS_nonneg (n : JSNum) (h : n.isNaN = false) : n.absJS.nonneg = true := by
  cases n <;> simp_all [JSNum.isNaN, JSNum.absJS, JSNum.nonneg, abs_nonneg]

theorem safeParseFloat_finite_or_source (v : JSValue) :
    (safeParseFloat v).isFinite = true ∨ floatNonfiniteSource v = true := by
  cases v with
  | num n =>
      cases n <;> simp [safeParseFloat, JSNum.isNaN, JSNum.isFinite, floatNonfiniteSource]
  | str s =>
      cases hinf : strDenotesInfinity s with
      | true => right; simp [floatNonfiniteSource, hinf]
      | false =>
          have hinf' :
              matchInfinity
                (readSign ((stripCommas (jsTrim s)).data.dropWhile jsWhitespace)).2 =
                false := hinf
          rcases parseFloatExact_shape (stripCommas (jsTrim s)) hinf' with ⟨q, hq⟩ | hnan
          · have hpf : parseFloatJS (stripCommas (jsTrim s)) = toDouble q := by
              unfold parseFloatJS
              rw [hq]
            rcases toDouble_fin_or_overflow q with hfin | hov
            · left
              show (if (parseFloatJS (stripCommas (jsTrim s))).isNaN then JSNum.finite 0
                  else parseFloatJS (stripCommas (jsTrim s))).isFinite = true
              rw [hpf, hfin]
              rfl
            · right
              simp [floatNonfiniteSource, strOverflowsFloat, hq, hov]
          · left
            show (if (parseFloatJS (stripCommas (jsTrim s))).isNaN then JSNum.finite 0
                else parseFloatJS (stripCommas (jsTrim s))).isFinite = true
            have hn : parseFloatJS (stripCommas (jsTrim s)) = .nan := by
              unfold parseFloatJS
              rw [hnan]
            rw [hn]
            rfl
  | null => left; rfl
  | undef => left; rfl

theorem safeParseInt_finite_or_source (v : JSValue) :
    (safeParseInt v).isFinite = true ∨ intNonfiniteSource v = true := by
  cases v with
  | num n =>
      cases n <;>
        simp [safeParseInt, JSNum.isNaN, JSNum.isFinite, JSNum.floorJS, intNonfiniteSource]
  | str s =>
      rcases parseIntExact_shape (stripCommas (jsTrim s)) with ⟨q, hq⟩ | hnan
      · have hpi : parseIntJS (stripCommas (jsTrim s)) = toDouble q := by
          unfold parseIntJS
          rw [hq]
        rcases toDouble_fin_or_overflow q with hfin | hov
        · left
          show (if (parseIntJS (stripCommas (jsTrim s))).isNaN then JSNum.finite 0
              else parseIntJS (stripCommas (jsTrim s))).isFinite = true
          rw [hpi, hfin]
          rfl
        · right
          simp [intNonfiniteSource, strOverflowsInt, hq, hov]
      · left
        show (if (parseIntJS (stripCommas (jsTrim s))).isNaN then JSNum.finite 0
            else parseIntJS (stripCommas (jsTrim s))).isFinite = true
        have hn : parseIntJS (stripCommas (jsTrim s)) = .nan := by
          unfold parseIntJS
          rw [hnan]
        rw [hn]
        rfl
  | null => left; rfl
  | undef => left; rfl

/-! ### Claim theorems -/

set_option maxRecDepth 16000 in
/-- C2, counterexample: the claim that the normalizers always return a
finite number fails on the number `Infinity`, which `safeParseFloat`
returns unchanged and `safeParseInt` maps through `Math.floor` to itself;
it also fails on decimal text beyond the double range, where `parseFloat`
and `parseInt` overflow to `Infinity` (`"1e999"`, a 1 with 309 zeros). -/
theorem normalizers_total_counterexample :
    (safeParseFloat (.num .posInf)).isFinite = false ∧
    (safeParseInt (.num .posInf)).isFinite = false ∧
    safeParseFloat (.str "1e999") = .posInf ∧
    safeParseInt (.str (String.mk ('1' :: List.replicate 309 '0'))) = .posInf := by
  refine ⟨?_, ?_, ?_, ?_⟩
  · with_unfolding_all rfl
  · with_unfolding_all rfl
  · with_unfolding_all rfl
  · with_unfolding_all rfl

/-- C2, amended: the normalizers are total and never return `NaN`; the
result is finite for every input except one that carries an infinity — an
infinite number passes through both normalizers, a string denoting an
infinity passes through `safeParseFloat`, and a string whose exact numeric
value overflows the double range (magnitude at least `2^1024 - 2^970`)
converts to an infinity. -/
theorem normalizers_total_amended (v : JSValue) :
    (safeParseFloat v).isNaN = false ∧ (safeParseInt v).isNaN = false ∧
    ((safeParseFloat v).isFinite = true ∨ floatNonfiniteSource v = true) ∧
    ((safeParseInt v).isFinite = true ∨ intNonfiniteSource v = true) :=
  ⟨safeParseFloat_not_nan v, safeParseInt_not_nan v,
    safeParseFloat_finite_or_source v, safeParseInt_finite_or_source v⟩

set_option maxRecDepth 16000 in
/-- C5: `total_debits` is the absolute value of the decimal-normalized raw
`total_withdrawals`, hence always nonnegative; in particular the raw
values `-152330.52` and `152330.52` both normalize to `152330.52`. -/
theorem totalDebits_absolute_value :
    (∀ a : AccountData,
      (mapAccountData a).total_debits = (safeParseFloat a.total_withdrawals).absJS ∧
      (mapAccountData a).total_debits.nonneg = true) ∧
    (mapAccountData (debitAccount (.num (.finite (mkRat (-15233052) 100))))).total_debits
        = .finite (mkRat 15233052 100) ∧
    (mapAccountData (debitAccount (.num (.finite (mkRat 15233052 100))))).total_debits
        = .finite (mkRat 15233052 100) ∧
    (mkRat 15233052 100 : ℚ) = 152330.52 := by
  refine ⟨fun a => ⟨rfl, absJS_nonneg _ (safeParseFloat_not_nan _)⟩, ?_, ?_, ?_⟩
  · with_unfolding_all rfl
  · with_unfolding_all rfl
  · rw [Rat.mkRat_eq_div]; norm_num

set_option maxRecDepth 16000 in
/-- C8: the concrete normalizer equations — commas are stripped and the
string parsed as a decimal (`toDecimal("1,234.56") = 1234.56`), parsed as
a whole number (`toInteger("1,234.56") = 1234`), the sentinel `"NA"` maps
to zero, and `null` maps to zero. -/
theorem normalizer_concrete_equations :
    safeParseFloat (.str "1,234.56") = .finite (mkRat 123456 100) ∧
    (mkRat 123456 100 : ℚ) = 1234.56 ∧
    safeParseInt (.str "1,234.56") = .finite 1234 ∧
    safeParseFloat (.str "NA") = .finite 0 ∧
    safeParseFloat .null = .finite 0 := by
  refine ⟨?_, ?_, ?_, ?_, ?_⟩
  · with_unfolding_all rfl
  · rw [Rat.mkRat_eq_div]; norm_num
  · with_unfolding_all rfl
  · with_unfolding_all rfl
  · rfl

/-- C10: when `parsed_json` is present but its accounts list is absent,
the mapper does not raise; it returns a row whose accounts sequence is
empty. -/
theorem missingAccounts_empty_row (now : ℕ) (d : ADLSResponse) (pj : ParsedJson)
    (hpj : d.parsed_json = some pj) (hacc : pj.accounts = none) :
    mapADLSToReconciliationRow now d = .ok (buildRow now pj d.batch_id d.filename) ∧
    (buildRow now pj d.batch_id d.filename).accounts = [] := by
  constructor
  · unfold mapADLSToReconciliationRow
    rw [hpj]
  · simp [buildRow, hacc]

/-- C10 witness: a concrete envelope whose detail object lacks its
accounts list maps to a row with no accounts. -/
theorem missingAccounts_empty_row_witness :
    statementNoAccounts.parsed_json = some pjNoAccounts ∧
    pjNoAccounts.accounts = none ∧
    mapADLSToReconciliationRow 3 statementNoAccounts =
      .ok (buildRow 3 pjNoAccounts (some "B9") none) ∧
    (buildRow 3 pjNoAccounts (some "B9") none).accounts = [] := by
  refine ⟨rfl, rfl, ?_, ?_⟩
  · exact (missingAccounts_empty_row 3 statementNoAccounts pjNoAccounts rfl rfl).1
  · exact (missingAccounts_empty_row 3 statementNoAccounts pjNoAccounts rfl rfl).2

/-- C3: the mapper raises exactly when the envelope lacks `parsed_json`
(malformed account fields never make it fail), and in a batch each failing
item is dropped independently: three items whose middle one lacks
`parsed_json` yield exactly the two rows of items 1 and 3, in order. -/
theorem mapStatement_structural_error :
    (∀ (now : ℕ) (d : ADLSResponse),
      (∃ e, mapADLSToReconciliationRow now d = .error e) ↔ d.parsed_json = none) ∧
    (∀ (clock : ℕ → ℕ) (i1 i2 i3 : ADLSResponse) (r1 r3 : ReconciliationRow),
      dataValid i1 = true → i2.parsed_json = none → dataValid i3 = true →
      mapADLSToReconciliationRow (clock 0) i1 = .ok r1 →
      mapADLSToReconciliationRow (clock 2) i3 = .ok r3 →
      fetchData clock [i1, i2, i3] 0 = [r1, r3]) := by
  constructor
  · intro now d
    cases h : d.parsed_json <;> simp [mapADLSToReconciliationRow, h]
  · intro clock i1 i2 i3 r1 r3 hv1 hpj2 hv3 hm1 hm3
    have hv2 : dataValid i2 = false := by simp [dataValid, hpj2]
    simp [fetchData, hv1, hv2, hv3, hm1, hm3]

/-- C3 witness: a concrete batch of three envelopes, the second missing its
detail object, maps to the rows of the first and third. -/
theorem mapStatement_structural_error_witness :
    dataValid stmtNoBatchA = true ∧ statementMissingDetail.parsed_json = none ∧
    dataValid stmtNoBatchB = true ∧
    fetchData (fun _ => 5) [stmtNoBatchA, statementMissingDetail, stmtNoBatchB] 0 =
      [buildRow 5 pjBankA none none, buildRow 5 pjBankB none none] := by
  refine ⟨rfl, rfl, rfl, ?_⟩
  exact mapStatement_structural_error.2 (fun _ => 5) _ _ _ _ _ rfl rfl rfl rfl rfl

/-- C4, counterexample: mapping the same envelope twice is not bit-identical
when `batch_id` is absent — the fallback case id embeds the `Date.now()`
reading, so readings `0` and `1` give different rows. -/
theorem mapping_idempotence_counterexample :
    statementNoBatch.batch_id = none ∧
    mapADLSToReconciliationRow 0 statementNoBatch = .ok (buildRow 0 pjBare none none) ∧
    mapADLSToReconciliationRow 1 statementNoBatch = .ok (buildRow 1 pjBare none none) ∧
    buildRow 0 pjBare none none ≠ buildRow 1 pjBare none none := by
  refine ⟨rfl, rfl, rfl, ?_⟩
  with_unfolding_all decide

/-- C4, amended: the mapping is a pure function of the raw statement and
the clock reading; whenever `batch_id` is present and non-empty the row
does not depend on the clock at all, so repeated mappings agree. -/
theorem mapping_deterministic_amended (now1 now2 : ℕ) (d : ADLSResponse) (b : String)
    (hb : d.batch_id = some b) (hne : b ≠ "") :
    mapADLSToReconciliationRow now1 d = mapADLSToReconciliationRow now2 d := by
  cases hpj : d.parsed_json with
  | none => unfold mapADLSToReconciliationRow; rw [hpj]
  | some pj =>
      unfold mapADLSToReconciliationRow
      rw [hpj, hb]
      simp [buildRow, hne]

/-- C4 witness: a concrete envelope with `batch_id = "B7"` maps identically
at clock readings 0 and 1. -/
theorem mapping_deterministic_amended_witness :
    statementWithBatch.batch_id = some "B7" ∧ ("B7" : String) ≠ "" ∧
    mapADLSToReconciliationRow 0 statementWithBatch =
      mapADLSToReconciliationRow 1 statementWithBatch :=
  ⟨rfl, by decide, mapping_deterministic_amended 0 1 statementWithBatch "B7" rfl (by decide)⟩

/-- C7, counterexample: two statements lacking `batch_id`, mapped in the
same fetch cycle at the same millisecond reading, receive the SAME
fallback case id — the claimed distinctness fails. -/
theorem fallbackCaseId_collision_counterexample :
    stmtNoBatchA.batch_id = none ∧ stmtNoBatchB.batch_id = none ∧
    (fetchData (fun _ => 1700000000000) [stmtNoBatchA, stmtNoBatchB] 0).map
        (fun r => r.case_id) = ["CASE-1700000000000", "CASE-1700000000000"] := by
  refine ⟨rfl, rfl, ?_⟩
  with_unfolding_all rfl

/-- C7, amended: `case_id` is `batch_id` verbatim whenever it is present
and non-empty; otherwise the fallback is `"CASE-" ++ Date.now()`, which is
NOT unique within a cycle: statements mapped at the same reading share the
same fallback id (distinctness would require distinct readings). -/
theorem caseId_amended :
    (∀ (now : ℕ) (pj : ParsedJson) (f : Option String) (b : String), b ≠ "" →
      (buildRow now pj (some b) f).case_id = b) ∧
    (∀ (now : ℕ) (pj : ParsedJson) (f : Option String),
      (buildRow now pj none f).case_id = "CASE-" ++ toString now ∧
      (buildRow now pj (some "") f).case_id = "CASE-" ++ toString now) ∧
    (∀ (now : ℕ) (pj1 pj2 : ParsedJson) (f1 f2 : Option String),
      (buildRow now pj1 none f1).case_id = (buildRow now pj2 none f2).case_id) := by
  refine ⟨?_, ?_, ?_⟩
  · intro now pj f b hb
    simp [buildRow, hb]
  · intro now pj f
    constructor <;> simp [buildRow]
  · intro now pj1 pj2 f1 f2
    simp [buildRow]

/-- C7 witness: a present non-empty `batch_id` is used verbatim. -/
theorem caseId_amended_witness :
    ("B7" : String) ≠ "" ∧ (buildRow 4 pjBare (some "B7") none).case_id = "B7" :=
  ⟨by decide, caseId_amended.1 4 pjBare none "B7" (by decide)⟩

theorem ratRender_intCast (z : ℤ) : ratRender ((z : ℚ)) = toString z := by
  unfold ratRender
  simp [Rat.den_intCast, Rat.num_intCast]

theorem render_intCast (z : ℤ) : (JSNum.finite ((z : ℚ))).render = toString z :=
  ratRender_intCast z

theorem render_intQ (z : ℤ) : (JSNum.finite (intQ z)).render = toString z := by
  show ratRender (intQ z) = toString z
  rw [intQ_eq]
  exact ratRender_intCast z

theorem jsOrNum_intCast (z : ℤ) (d : ℚ) (hz : z ≠ 0) :
    jsOrNum (.finite (z : ℚ)) d = .finite (z : ℚ) := by
  unfold jsOrNum
  rw [if_neg]
  simp [hz]

theorem jsDateLastDay_std (y m : ℤ) (hy : 100 ≤ y) (hm1 : 1 ≤ m) (hm2 : m ≤ 12) :
    jsDateLastDay (.finite (y : ℚ)) (.finite (m : ℚ)) = .finite (intQ (daysInMonth y m)) := by
  unfold jsDateLastDay
  simp only [Rat.den_intCast, Rat.num_intCast, and_self, if_true]
  rw [if_neg (by omega)]
  have hdiv : (y * 12 + (m - 1)) / 12 = y := by omega
  have hmod : (y * 12 + (m - 1)) % 12 + 1 = m := by omega
  rw [hdiv, hmod]

/-- C1: per account, `calculated_balance = starting - debits + credits`,
`difference = round2(ending - calculated)`, and the account is reported
reconciled (`isHarmonized`) iff `|difference| < 0.005`; a raw difference of
`0.001` is reconciled and `0.006` is not. -/
theorem reconciliation_verdict_spec :
    (∀ (a : MappedAccount) (sb td tc eb : ℚ),
      a.starting_balance = .finite sb → a.total_debits = .finite td →
      a.total_credits = .finite tc → a.ending_balance = .finite eb →
      (isHarmonized a = true ↔ |round2 (eb - (sb - td + tc))| < 5/1000)) ∧
    isHarmonized (acctWithBalances 0 0 0 (mkRat 1 1000)) = true ∧
    isHarmonized (acctWithBalances 0 0 0 (mkRat 6 1000)) = false := by
  refine ⟨?_, ?_, ?_⟩
  · intro a sb td tc eb hsb htd htc heb
    unfold isHarmonized calculateDifference
    rw [hsb, htd, htc, heb]
    dsimp only
    rw [JSNum.sub_fin, JSNum.add_fin, JSNum.sub_fin, intQ_hundred,
      JSNum.mul_fin, JSNum.roundJS_fin, mkRat_half, intQ_eq,
      JSNum.div_fin _ _ (by norm_num : (100 : ℚ) ≠ 0), JSNum.absJS_fin, JSNum.ltJS_fin,
      mkRat_noise]
    have hfold :
        ((Rat.floor ((eb - (sb - td + tc)) * 100 + 1/2) : ℤ) : ℚ) / 100 =
          round2 (eb - (sb - td + tc)) := rfl
    rw [hfold]
    by_cases hlt : |round2 (eb - (sb - td + tc))| < 5/1000
    · simp [hlt]
    · rw [if_neg (by simpa using hlt)]
      simp only [decide_eq_true_eq]
      constructor
      · intro h
        exact absurd (JSNum.finite.inj h) (by
          intro h0
          exact hlt (by rw [h0]; norm_num))
      · intro h
        exact absurd h hlt
  · with_unfolding_all rfl
  · with_unfolding_all rfl

/-- C1 witness: the verdict equivalence applied to the all-zero account. -/
theorem reconciliation_verdict_spec_witness :
    (acctWithBalances 0 0 0 0).starting_balance = .finite 0 ∧
    (isHarmonized (acctWithBalances 0 0 0 0) = true ↔
      |round2 (0 - ((0 : ℚ) - 0 + 0))| < 5/1000) :=
  ⟨rfl, reconciliation_verdict_spec.1 (acctWithBalances 0 0 0 0) 0 0 0 0 rfl rfl rfl rfl⟩

/-- C6: for a statement whose normalized month is in 1–12 and year is a
4-digit number, the first transaction date is `<month>/1/<year>` and the
last is `<month>/<lastday>/<year>` with correct month lengths and leap
years (February 2024 → 29, February 2025 → 28, August 2025 → `8/1/2025`
and `8/31/2025`), no leading zeros; month defaults to 1 and year to 2025
when absent or unparseable. -/
theorem transaction_dates_spec :
    (∀ (now : ℕ) (pj : ParsedJson) (b f : Option String) (mz yz : ℤ),
      safeParseInt pj.statement_month = .finite ((mz : ℤ) : ℚ) →
      safeParseInt pj.statement_year = .finite ((yz : ℤ) : ℚ) →
      1 ≤ mz → mz ≤ 12 → 1000 ≤ yz → yz ≤ 9999 →
      (buildRow now pj b f).first_transaction_date =
        toString mz ++ "/1/" ++ toString yz ∧
      (buildRow now pj b f).last_transaction_date =
        toString mz ++ "/" ++ toString (daysInMonth yz mz) ++ "/" ++ toString yz) ∧
    daysInMonth 2024 2 = 29 ∧ daysInMonth 2025 2 = 28 ∧ daysInMonth 2025 8 = 31 ∧
    (buildRow 0 pjFeb2024 none none).last_transaction_date = "2/29/2024" ∧
    (buildRow 0 pjFeb2025 none none).last_transaction_date = "2/28/2025" ∧
    (buildRow 0 pjAug2025 none none).first_transaction_date = "8/1/2025" ∧
    (buildRow 0 pjAug2025 none none).last_transaction_date = "8/31/2025" ∧
    (buildRow 0 pjBare none none).first_transaction_date = "1/1/2025" ∧
    (buildRow 0 pjBare none none).last_transaction_date = "1/31/2025" ∧
    (buildRow 0 pjInvalidMonthYear none none).first_transaction_date = "1/1/2025" ∧
    (buildRow 0 pjInvalidMonthYear none none).last_transaction_date = "1/31/2025" := by
  refine ⟨?_, ?_, ?_, ?_, ?_, ?_, ?_, ?_, ?_, ?_, ?_, ?_⟩
  · intro now pj b f mz yz hm hy hm1 hm2 hy1 hy2
    have hmne : mz ≠ 0 := by omega
    have hyne : yz ≠ 0 := by omega
    constructor
    · simp only [buildRow]
      rw [hm, hy, jsOrNum_intCast _ _ hmne, jsOrNum_intCast _ _ hyne,
        render_intCast, render_intCast]
    · simp only [buildRow]
      rw [hm, hy, jsOrNum_intCast _ _ hmne, jsOrNum_intCast _ _ hyne,
        jsDateLastDay_std yz mz (by omega) hm1 hm2,
        render_intCast, render_intCast, render_intQ]
  all_goals with_unfolding_all rfl

/-- C6 witness: the general date derivation applied to August 2025. -/
theorem transaction_dates_spec_witness :
    safeParseInt pjAug2025.statement_month = .finite ((8 : ℤ) : ℚ) ∧
    safeParseInt pjAug2025.statement_year = .finite ((2025 : ℤ) : ℚ) ∧
    (buildRow 0 pjAug2025 none none).first_transaction_date =
      toString (8 : ℤ) ++ "/1/" ++ toString (2025 : ℤ) ∧
    (buildRow 0 pjAug2025 none none).last_transaction_date =
      toString (8 : ℤ) ++ "/" ++ toString (daysInMonth 2025 8) ++ "/" ++ toString (2025 : ℤ) := by
  have hm : safeParseInt pjAug2025.statement_month = .finite ((8 : ℤ) : ℚ) := by
    with_unfolding_all rfl
  have hy : safeParseInt pjAug2025.statement_year = .finite ((2025 : ℤ) : ℚ) := by
    with_unfolding_all rfl
  obtain ⟨h1, h2⟩ := transaction_dates_spec.1 0 pjAug2025 none none 8 2025 hm hy
    (by norm_num) (by norm_num) (by norm_num) (by norm_num)
  exact ⟨hm, hy, h1, h2⟩
